import Mathlib

/-!
Shallow embedding of the comparison/analysis engine of the fbx2glb
repository (src/lib/compare.js), of the transient-file cleanup helper
(src/lib/utils.js, shipped in src/lib/logger.js in this snapshot), and of
the orchestrator's catch-block cleanup (the CLI entry file).

Modelling conventions:
* JavaScript numbers are modelled with exact integer and rational
  arithmetic (counts are natural numbers); IEEE-754 double rounding is
  abstracted away.
* A JavaScript `TypeError` thrown by calling an array method on a
  non-array value is modelled as `Except.error ()`; code that cannot
  throw is a plain function.
* Terminal colouring (chalk) is presentation only and is dropped; the
  text content of the report lines is kept.
-/

/-- A substructure of an inspect record that the code reads through a
`properties` key holding an array. `missing` covers an absent
substructure as well as an absent or otherwise falsy `properties` value;
`nonArrayObj` is a truthy non-array `properties` value, modelled as a
plain object (no array methods, no numeric `length`); `arr` is an actual
array. -/
inductive JProps (α : Type) where
  | missing
  | nonArrayObj
  | arr (xs : List α)
deriving DecidableEq

/-- Per-mesh record of an inspect snapshot; the code reads
`mesh.vertices`, `mesh.size` and `mesh.attributes`, each possibly
absent. -/
structure MeshInfo where
  vertices : Option Nat := none
  size : Option Nat := none
  attributes : Option (List String) := none
deriving DecidableEq

/-- Per-material record; the code reads `material.textures`, used only
when it is an actual array (`Array.isArray` guard), so an absent or
non-array value is modelled as `none`. -/
structure MaterialInfo where
  textures : Option (List Unit) := none
deriving DecidableEq

/-- Per-scene record; the code reads `scene.uploadVertexCount`. -/
structure SceneInfo where
  uploadVertexCount : Option Nat := none
deriving DecidableEq

/-- An inspect snapshot as consumed by src/lib/compare.js: the five
substructures the code dereferences. -/
structure Inspect where
  meshes : JProps MeshInfo := .missing
  materials : JProps MaterialInfo := .missing
  textures : JProps Unit := .missing
  animations : JProps Unit := .missing
  scenes : JProps SceneInfo := .missing
deriving DecidableEq

/-- The options object handed to `analyzeComparison` (the report module
passes exactly the `draco` and `ktx2` flags). -/
structure Options where
  draco : Bool := false
  ktx2 : Bool := false
deriving DecidableEq

/-- The decimal digit character for `n`; only ever applied to `n < 10`. -/
def digitChar (n : Nat) : Char :=
  match n with
  | 0 => '0'
  | 1 => '1'
  | 2 => '2'
  | 3 => '3'
  | 4 => '4'
  | 5 => '5'
  | 6 => '6'
  | 7 => '7'
  | 8 => '8'
  | 9 => '9'
  | _ => '0'

/-- Decimal digit list of `n`, most significant digit first. The first
argument is recursion fuel, always called with fuel at least `n`, which
suffices since the value shrinks by a factor of ten per step. -/
def natDigitsAux : Nat → Nat → List Char
  | 0, n => [digitChar n]
  | fuel + 1, n =>
    if n < 10 then [digitChar n]
    else natDigitsAux fuel (n / 10) ++ [digitChar (n % 10)]

/-- Decimal rendering of a natural number, modelling the JavaScript
string conversion of a nonnegative integer. -/
def natToString (n : Nat) : String :=
  String.mk (natDigitsAux n n)

/-- Models the JavaScript expression `((num / den) * 100).toFixed(1)`
with exact rational arithmetic. For `den = 0`, JavaScript division
yields an infinity (or NaN for 0/0), which `toFixed` renders as its
name. For `den > 0`, `Number.prototype.toFixed` first extracts the sign
and then rounds the magnitude to the nearest tenth, ties toward the
larger rounded value; the rounded number of tenths
`⌊|num| * 1000 / den + 1/2⌋` is computed here as the integer division
`(2000 * |num| + den) / (2 * den)`. -/
def jsDivToFixed1 (num : Int) (den : Nat) : String :=
  if den = 0 then
    if 0 < num then "Infinity" else if num < 0 then "-Infinity" else "NaN"
  else
    let tenths := (2000 * num.natAbs + den) / (2 * den)
    (if num < 0 then "-" else "") ++
      natToString (tenths / 10) ++ "." ++ natToString (tenths % 10)

/-- Models the JavaScript expression `(num / 1024 / 1024).toFixed(2)`
with exact rational arithmetic: the rounded number of hundredths
`⌊|num| * 100 / 1048576 + 1/2⌋` is computed as
`(200 * |num| + 1048576) / 2097152`, and the fractional part is
zero-padded to two digits. -/
def jsMBToFixed2 (num : Int) : String :=
  let hundredths := (200 * num.natAbs + 1048576) / 2097152
  (if num < 0 then "-" else "") ++
    natToString (hundredths / 100) ++ "." ++
    String.mk [digitChar (hundredths / 10 % 10), digitChar (hundredths % 10)]

/-- `leadsWith needle hay` is true when `needle` is a leading segment of
`hay`. -/
def leadsWith : List Char → List Char → Bool
  | [], _ => true
  | _ :: _, [] => false
  | c :: cs, d :: ds => c == d && leadsWith cs ds

/-- `occursIn needle hay` is true when `needle` occurs contiguously
somewhere in `hay`. -/
def occursIn : List Char → List Char → Bool
  | needle, [] => leadsWith needle []
  | needle, d :: ds => leadsWith needle (d :: ds) || occursIn needle ds

/-- Models `String.prototype.includes` from JavaScript (the code calls
`analysis.uv.change.includes(...)`). -/
def jsIncludes (hay needle : String) : Bool :=
  occursIn needle.toList hay.toList

/-- Models `x?.properties?.length || 0`: an absent substructure, or a
`properties` value without a numeric `length` (a plain non-array
object), gives 0. -/
def jsPropsLength {α : Type} : JProps α → Nat
  | .arr xs => xs.length
  | _ => 0

/-- Embeds `getTotalVertices`: `!inspect.meshes?.properties` returns 0
for an absent substructure or falsy `properties`; a truthy non-array
`properties` reaches `.reduce`, which throws a TypeError. Each mesh
contributes `mesh.vertices || 0`. -/
def getTotalVertices (inspect : Inspect) : Except Unit Nat :=
  match inspect.meshes with
  | .missing => .ok 0
  | .nonArrayObj => .error ()
  | .arr xs => .ok (xs.foldl (fun sum mesh => sum + mesh.vertices.getD 0) 0)

/-- Embeds `countMeshesWithUV`: among the meshes, those whose
`attributes` array has an entry starting with the text TEXCOORD; an
absent `attributes` makes the predicate falsy. A truthy non-array
`properties` reaches `.filter`, which throws. -/
def countMeshesWithUV (inspect : Inspect) : Except Unit Nat :=
  match inspect.meshes with
  | .missing => .ok 0
  | .nonArrayObj => .error ()
  | .arr xs =>
    .ok ((xs.filter fun mesh =>
      match mesh.attributes with
      | some attrs => attrs.any fun attr => leadsWith ("TEXCOORD").toList attr.toList
      | none => false).length)

/-- Embeds `getMeshCount` (`inspect.meshes?.properties?.length || 0`). -/
def getMeshCount (inspect : Inspect) : Nat :=
  jsPropsLength inspect.meshes

/-- Embeds `getTotalGeometrySize`: like `getTotalVertices` with
`mesh.size || 0`. -/
def getTotalGeometrySize (inspect : Inspect) : Except Unit Nat :=
  match inspect.meshes with
  | .missing => .ok 0
  | .nonArrayObj => .error ()
  | .arr xs => .ok (xs.foldl (fun sum mesh => sum + mesh.size.getD 0) 0)

/-- Embeds `getMaterialCount` (`inspect.materials?.properties?.length || 0`). -/
def getMaterialCount (inspect : Inspect) : Nat :=
  jsPropsLength inspect.materials

/-- Embeds `countTextures`: the texture registry is used only when
`textures.properties` is an actual array (`Array.isArray` guard);
otherwise the per-material `textures` array lengths are summed with
`forEach`, which throws on a truthy non-array `materials.properties`;
otherwise the count is 0. -/
def countTextures (inspect : Inspect) : Except Unit Nat :=
  match inspect.textures with
  | .arr xs => .ok xs.length
  | _ =>
    match inspect.materials with
    | .arr ms =>
      .ok (ms.foldl (fun count material => count + (material.textures.getD []).length) 0)
    | .nonArrayObj => .error ()
    | .missing => .ok 0

/-- Embeds `getUploadVertexCount`: when `scenes.properties` is a
nonempty array, `properties[0].uploadVertexCount || 0`; otherwise 0 (a
non-array `properties` fails the `.length > 0` test since its `length`
is undefined). -/
def getUploadVertexCount (inspect : Inspect) : Nat :=
  match inspect.scenes with
  | .arr (s :: _) => s.uploadVertexCount.getD 0
  | _ => 0

/-- Models the JavaScript fallback `a || b` on numbers: `a` when it is
non-zero (truthy), otherwise the value of `b`, whose evaluation may
throw. -/
def jsOr (a : Nat) (b : Except Unit Nat) : Except Unit Nat :=
  if a = 0 then b else .ok a

/-- Result record of `analyzeVertices`. -/
structure VertexAnalysis where
  before : Nat
  after : Nat
  diff : Int
  percent : String
deriving DecidableEq

/-- Result record of `analyzeUV`. -/
structure UVAnalysis where
  before : Nat
  after : Nat
  totalMeshes : Nat
  change : String
deriving DecidableEq

/-- Result record of `analyzeGeometry`. -/
structure GeometryAnalysis where
  before : Nat
  after : Nat
  beforeMB : String
  afterMB : String
  diff : Int
  diffMB : String
  percent : String
deriving DecidableEq

/-- Result record of `analyzeMaterials`. -/
structure MaterialAnalysis where
  before : Nat
  after : Nat
  diff : Int
  reason : String
deriving DecidableEq

/-- Result record of `analyzeAnimations`. -/
structure AnimationAnalysis where
  before : Nat
  after : Nat
  preserved : Bool
deriving DecidableEq

/-- Result record of `analyzeTextures`. -/
structure TextureAnalysis where
  before : Nat
  after : Nat
  hasTextures : Bool
  ktx2Status : String
deriving DecidableEq

/-- The full analysis record assembled by `analyzeComparison`. -/
structure ComparisonAnalysis where
  vertices : VertexAnalysis
  uv : UVAnalysis
  geometry : GeometryAnalysis
  materials : MaterialAnalysis
  animations : AnimationAnalysis
  textures : TextureAnalysis
  highlights : List String
deriving DecidableEq

/-- Embeds `analyzeVertices`: each snapshot independently prefers the
scene aggregate `uploadVertexCount` when truthy, falling back to the
per-mesh sum; `percent` guards a zero before-count. -/
def analyzeVertices (before after : Inspect) : Except Unit VertexAnalysis := do
  let beforeVertices ← jsOr (getUploadVertexCount before) (getTotalVertices before)
  let afterVertices ← jsOr (getUploadVertexCount after) (getTotalVertices after)
  let diff : Int := (afterVertices : Int) - (beforeVertices : Int)
  let percent := if 0 < beforeVertices then jsDivToFixed1 diff beforeVertices else "0.0"
  pure { before := beforeVertices, after := afterVertices, diff := diff,
         percent := percent ++ "%" }

/-- Embeds `analyzeUV`: the if/else-if chain classifying the UV-bearing
mesh count change. Note the last else-if divides by `beforeUVCount`
without a zero guard. -/
def analyzeUV (before after : Inspect) : Except Unit UVAnalysis := do
  let beforeUVCount ← countMeshesWithUV before
  let afterUVCount ← countMeshesWithUV after
  let totalMeshes := getMeshCount before
  let change :=
    if 0 < beforeUVCount ∧ afterUVCount = 0 then "100% 删除"
    else if 0 < beforeUVCount ∧ afterUVCount < beforeUVCount then
      jsDivToFixed1 ((beforeUVCount : Int) - (afterUVCount : Int)) beforeUVCount ++ "% 删除"
    else if beforeUVCount < afterUVCount then
      jsDivToFixed1 ((afterUVCount : Int) - (beforeUVCount : Int)) beforeUVCount ++ "% 增加"
    else "0%"
  pure { before := beforeUVCount, after := afterUVCount, totalMeshes := totalMeshes,
         change := change }

/-- Embeds `analyzeGeometry`: total mesh byte sizes, with megabyte
renderings, and the same zero-guarded percentage as the vertex
analyzer. -/
def analyzeGeometry (before after : Inspect) : Except Unit GeometryAnalysis := do
  let beforeSize ← getTotalGeometrySize before
  let afterSize ← getTotalGeometrySize after
  let diff : Int := (afterSize : Int) - (beforeSize : Int)
  let percent := if 0 < beforeSize then jsDivToFixed1 diff beforeSize else "0.0"
  pure { before := beforeSize, after := afterSize,
         beforeMB := jsMBToFixed2 (beforeSize : Int),
         afterMB := jsMBToFixed2 (afterSize : Int),
         diff := diff, diffMB := jsMBToFixed2 diff,
         percent := percent ++ "%" }

/-- Embeds `analyzeMaterials`. -/
def analyzeMaterials (before after : Inspect) : MaterialAnalysis :=
  let beforeCount := getMaterialCount before
  let afterCount := getMaterialCount after
  let diff : Int := (afterCount : Int) - (beforeCount : Int)
  let reason := if diff < 0 then "（dedup）" else if 0 < diff then "（增加）" else ""
  { before := beforeCount, after := afterCount, diff := diff, reason := reason }

/-- Embeds `analyzeAnimations` (`animations?.properties?.length || 0`
on each side). -/
def analyzeAnimations (before after : Inspect) : AnimationAnalysis :=
  let beforeAnimations := jsPropsLength before.animations
  let afterAnimations := jsPropsLength after.animations
  { before := beforeAnimations, after := afterAnimations,
    preserved := decide (beforeAnimations = afterAnimations ∧ 0 < beforeAnimations) }

/-- Embeds `analyzeTextures`. -/
def analyzeTextures (before after : Inspect) (options : Options) :
    Except Unit TextureAnalysis := do
  let beforeTextures ← countTextures before
  let afterTextures ← countTextures after
  let hasTextures := decide (0 < beforeTextures ∨ 0 < afterTextures)
  let ktx2Status :=
    if options.ktx2 then
      if hasTextures then "已应用" else "不适用（无贴图模型）"
    else
      if hasTextures then "未启用" else "不适用（无贴图模型）"
  pure { before := beforeTextures, after := afterTextures,
         hasTextures := hasTextures, ktx2Status := ktx2Status }

/-- Embeds `generateHighlights`: the four push statements, in source
order, each contributing zero or one string. -/
def generateHighlights (analysis : ComparisonAnalysis) (options : Options) : List String :=
  let h1 : List String :=
    if jsIncludes analysis.uv.change ("删除") then ["体积下降主要来自 prune 删除无用 UV"] else []
  let h2 : List String :=
    if analysis.materials.diff < 0 then
      ["材质通过 dedup 从 " ++ natToString analysis.materials.before ++
        " 减少到 " ++ natToString analysis.materials.after]
    else []
  let h3 : List String := if options.draco then ["Draco 几何压缩已应用"] else []
  let h4 : List String :=
    if options.ktx2 && analysis.textures.hasTextures then ["KTX2 贴图压缩已应用"] else []
  h1 ++ h2 ++ h3 ++ h4

/-- Embeds `analyzeComparison`: the analyzers run in object-literal
order (the first thrown TypeError propagates), then the highlight list
is filled in. -/
def analyzeComparison (beforeInspect afterInspect : Inspect) (options : Options) :
    Except Unit ComparisonAnalysis := do
  let vertices ← analyzeVertices beforeInspect afterInspect
  let uv ← analyzeUV beforeInspect afterInspect
  let geometry ← analyzeGeometry beforeInspect afterInspect
  let materials := analyzeMaterials beforeInspect afterInspect
  let animations := analyzeAnimations beforeInspect afterInspect
  let textures ← analyzeTextures beforeInspect afterInspect options
  let analysis : ComparisonAnalysis :=
    { vertices := vertices, uv := uv, geometry := geometry, materials := materials,
      animations := animations, textures := textures, highlights := [] }
  pure { analysis with highlights := generateHighlights analysis options }

/-- Embeds the animation branch of `printComparisonReport` (chalk
colouring dropped): a positive before-count reports the preservation
status, a zero before-count reports the distinct no-animation-data
line. -/
def animationReportLine (animations : AnimationAnalysis) : String :=
  if 0 < animations.before then
    if animations.preserved then "动画完整保留"
    else
      "动画部分保留（" ++ natToString animations.after ++ "/" ++
        natToString animations.before ++ "）"
  else "动画：无动画数据"

/-- Abstract file-system state for the cleanup contract: which paths
exist, and for which paths an unlink call succeeds (an unlink failure is
the thrown error the code catches). -/
structure FileSystem where
  pathExists : String → Bool
  unlinkSucceeds : String → Bool

/-- Embeds `cleanupTempFile`: when the file exists, try to unlink it and
return true on success; the catch turns an unlink failure into false; an
absent file returns false. The function is total: no error escapes. -/
def cleanupTempFile (fs : FileSystem) (filePath : String) : Bool × FileSystem :=
  if fs.pathExists filePath then
    if fs.unlinkSucceeds filePath then
      (true,
        { fs with pathExists := fun p => if p == filePath then false else fs.pathExists p })
    else (false, fs)
  else (false, fs)

/-- Embeds the catch block of `main` in the CLI entry file: after a
fatal pipeline failure it performs best-effort cleanup of the transient
file (making no assumption that it exists) and exits with code 1. The
spinner/error printing is presentation only. -/
def mainCatchHandler (fs : FileSystem) (tempGLB : String) : Nat × FileSystem :=
  let cleaned := cleanupTempFile fs tempGLB
  (1, cleaned.2)

/-- Reference rendering of a rational value rounded to one decimal,
following the specification's words for percentage formatting: sign
first, then the magnitude rounded to the nearest tenth (ties toward the
larger rounded magnitude, as JavaScript toFixed does), with exactly one
decimal digit. -/
def specToFixed1 (q : ℚ) : String :=
  let tenths : Nat := (Int.floor (|q| * 10 + 1 / 2)).toNat
  (if q < 0 then "-" else "") ++
    natToString (tenths / 10) ++ "." ++ natToString (tenths % 10)

/-- An inspect record with every substructure absent. -/
def emptyInspect : Inspect := {}

def meshNoUV : MeshInfo := { attributes := some ["POSITION"] }

def meshUV : MeshInfo := { attributes := some ["POSITION", "TEXCOORD_0"] }

def uvZeroBefore : Inspect := { meshes := .arr [meshNoUV] }

def uvOneAfter : Inspect := { meshes := .arr [meshUV] }

def uv3Before : Inspect := { meshes := .arr [meshUV, meshUV, meshUV] }

def uv0After : Inspect := { meshes := .arr [meshNoUV, meshNoUV, meshNoUV] }

def vertsBefore : Inspect := { meshes := .arr [{ vertices := some 4, size := some 1000 }] }

def vertsAfter : Inspect := { meshes := .arr [{ vertices := some 5, size := some 500 }] }

def aggBefore : Inspect :=
  { meshes := .arr [{ vertices := some 7 }],
    scenes := .arr [{ uploadVertexCount := some 5 }] }

def sumAfter : Inspect := { meshes := .arr [{ vertices := some 9 }] }

def noTexDracoSnap : Inspect :=
  { meshes := .arr [{ vertices := some 8, size := some 64, attributes := some ["POSITION"] }] }

def texRegistrySnap : Inspect :=
  { materials := .arr [{ textures := some [()] }], textures := .arr [(), (), ()] }

def texMaterialSnap : Inspect :=
  { materials := .arr [{ textures := some [(), ()] }, { textures := none },
      { textures := some [()] }] }

def animSnapOne : Inspect := { animations := .arr [()] }

def richMesh : MeshInfo :=
  { vertices := some 10, size := some 2048, attributes := some ["POSITION", "TEXCOORD_0"] }

def richSnap : Inspect :=
  { meshes := .arr [richMesh],
    materials := .arr [{ textures := some [(), ()] }],
    textures := .arr [(), ()],
    animations := .arr [()],
    scenes := .arr [{ uploadVertexCount := some 10 }] }

def nonArrayMeshesSnap : Inspect := { meshes := JProps.nonArrayObj }

theorem jsOr_ok_iff (a : Nat) (b : Except Unit Nat) (v : Nat) :
    jsOr a b = Except.ok v ↔ ((a ≠ 0 ∧ v = a) ∨ (a = 0 ∧ b = Except.ok v)) := by
  unfold jsOr
  split
  · rename_i h
    simp [h]
  · rename_i h
    simp [h, eq_comm]

theorem analyzeVertices_ok_iff (b a : Inspect) (r : VertexAnalysis) :
    analyzeVertices b a = Except.ok r ↔
    ∃ bv av, jsOr (getUploadVertexCount b) (getTotalVertices b) = Except.ok bv ∧
      jsOr (getUploadVertexCount a) (getTotalVertices a) = Except.ok av ∧
      r = { before := bv, after := av, diff := (av : Int) - (bv : Int),
            percent := (if 0 < bv then jsDivToFixed1 ((av : Int) - (bv : Int)) bv
                        else "0.0") ++ "%" } := by
  unfold analyzeVertices
  cases h1 : jsOr (getUploadVertexCount b) (getTotalVertices b) with
  | error e => simp [h1, Except.bind, bind]
  | ok bv =>
    cases h2 : jsOr (getUploadVertexCount a) (getTotalVertices a) with
    | error e => simp [h1, h2, Except.bind, bind]
    | ok av =>
      simp [h1, h2, Except.bind, bind, pure, Except.pure, eq_comm]

theorem analyzeUV_ok_iff (b a : Inspect) (u : UVAnalysis) :
    analyzeUV b a = Except.ok u ↔
    ∃ bu au, countMeshesWithUV b = Except.ok bu ∧ countMeshesWithUV a = Except.ok au ∧
      u = { before := bu, after := au, totalMeshes := getMeshCount b,
            change :=
              if 0 < bu ∧ au = 0 then "100% 删除"
              else if 0 < bu ∧ au < bu then
                jsDivToFixed1 ((bu : Int) - (au : Int)) bu ++ "% 删除"
              else if bu < au then
                jsDivToFixed1 ((au : Int) - (bu : Int)) bu ++ "% 增加"
              else "0%" } := by
  unfold analyzeUV
  cases h1 : countMeshesWithUV b with
  | error e => simp [h1, Except.bind, bind]
  | ok bu =>
    cases h2 : countMeshesWithUV a with
    | error e => simp [h1, h2, Except.bind, bind]
    | ok au => simp [h1, h2, Except.bind, bind, pure, Except.pure, eq_comm]

theorem analyzeGeometry_ok_iff (b a : Inspect) (g : GeometryAnalysis) :
    analyzeGeometry b a = Except.ok g ↔
    ∃ bs as2, getTotalGeometrySize b = Except.ok bs ∧ getTotalGeometrySize a = Except.ok as2 ∧
      g = { before := bs, after := as2,
            beforeMB := jsMBToFixed2 (bs : Int), afterMB := jsMBToFixed2 (as2 : Int),
            diff := (as2 : Int) - (bs : Int),
            diffMB := jsMBToFixed2 ((as2 : Int) - (bs : Int)),
            percent := (if 0 < bs then jsDivToFixed1 ((as2 : Int) - (bs : Int)) bs
                        else "0.0") ++ "%" } := by
  unfold analyzeGeometry
  cases h1 : getTotalGeometrySize b with
  | error e => simp [h1, Except.bind, bind]
  | ok bs =>
    cases h2 : getTotalGeometrySize a with
    | error e => simp [h1, h2, Except.bind, bind]
    | ok as2 => simp [h1, h2, Except.bind, bind, pure, Except.pure, eq_comm]

theorem analyzeTextures_ok_elim (b a : Inspect) (o : Options) (t : TextureAnalysis)
    (h : analyzeTextures b a o = Except.ok t) :
    ∃ bt at2, countTextures b = Except.ok bt ∧ countTextures a = Except.ok at2 ∧
      t = { before := bt, after := at2,
            hasTextures := decide (0 < bt ∨ 0 < at2),
            ktx2Status :=
              if o.ktx2 then
                if decide (0 < bt ∨ 0 < at2) then "已应用" else "不适用（无贴图模型）"
              else
                if decide (0 < bt ∨ 0 < at2) then "未启用" else "不适用（无贴图模型）" } := by
  unfold analyzeTextures at h
  cases h1 : countTextures b with
  | error e => rw [h1] at h; simp only [Except.bind, bind] at h; exact absurd h (by simp)
  | ok bt =>
  cases h2 : countTextures a with
  | error e => rw [h1, h2] at h; simp only [Except.bind, bind] at h; exact absurd h (by simp)
  | ok at2 =>
  rw [h1, h2] at h
  simp only [Except.bind, bind, pure, Except.pure, Except.ok.injEq] at h
  exact ⟨bt, at2, rfl, rfl, h.symm⟩

theorem analyzeComparison_ok_elim (b a : Inspect) (o : Options) (r : ComparisonAnalysis)
    (h : analyzeComparison b a o = Except.ok r) :
    ∃ v u g t, analyzeVertices b a = Except.ok v ∧ analyzeUV b a = Except.ok u ∧
      analyzeGeometry b a = Except.ok g ∧ analyzeTextures b a o = Except.ok t ∧
      r = { vertices := v, uv := u, geometry := g,
            materials := analyzeMaterials b a, animations := analyzeAnimations b a,
            textures := t,
            highlights := generateHighlights
              { vertices := v, uv := u, geometry := g,
                materials := analyzeMaterials b a, animations := analyzeAnimations b a,
                textures := t, highlights := [] } o } := by
  unfold analyzeComparison at h
  cases h1 : analyzeVertices b a with
  | error e => rw [h1] at h; simp [Except.bind, bind] at h
  | ok v =>
  cases h2 : analyzeUV b a with
  | error e => rw [h1, h2] at h; simp [Except.bind, bind] at h
  | ok u =>
  cases h3 : analyzeGeometry b a with
  | error e => rw [h1, h2, h3] at h; simp [Except.bind, bind] at h
  | ok g =>
  cases h4 : analyzeTextures b a o with
  | error e => rw [h1, h2, h3, h4] at h; simp [Except.bind, bind] at h
  | ok t =>
  rw [h1, h2, h3, h4] at h
  simp only [Except.bind, bind, pure, Except.pure, Except.ok.injEq] at h
  exact ⟨v, u, g, t, rfl, rfl, rfl, rfl, h.symm⟩

theorem analyzeComparison_ok_build (b a : Inspect) (o : Options)
    (v : VertexAnalysis) (u : UVAnalysis) (g : GeometryAnalysis) (t : TextureAnalysis)
    (hv : analyzeVertices b a = Except.ok v) (hu : analyzeUV b a = Except.ok u)
    (hg : analyzeGeometry b a = Except.ok g) (ht : analyzeTextures b a o = Except.ok t) :
    analyzeComparison b a o =
      Except.ok
        { vertices := v, uv := u, geometry := g,
          materials := analyzeMaterials b a, animations := analyzeAnimations b a,
          textures := t,
          highlights := generateHighlights
            { vertices := v, uv := u, geometry := g,
              materials := analyzeMaterials b a, animations := analyzeAnimations b a,
              textures := t, highlights := [] } o } := by
  unfold analyzeComparison
  rw [hv, hu, hg, ht]
  simp only [Except.bind, bind, pure, Except.pure]

theorem digitChar_mem (n : Nat) : digitChar n ∈ ("0123456789").toList := by
  unfold digitChar
  split <;> decide

theorem natDigitsAux_mem (fuel : Nat) :
    ∀ (n : Nat) (c : Char), c ∈ natDigitsAux fuel n → c ∈ ("0123456789").toList := by
  induction fuel with
  | zero =>
    intro n c hc
    simp only [natDigitsAux, List.mem_singleton] at hc
    exact hc ▸ digitChar_mem n
  | succ f ih =>
    intro n c hc
    unfold natDigitsAux at hc
    by_cases h : n < 10
    · rw [if_pos h] at hc
      simp only [List.mem_singleton] at hc
      exact hc ▸ digitChar_mem n
    · rw [if_neg h] at hc
      rcases List.mem_append.mp hc with hc | hc
      · exact ih _ _ hc
      · simp only [List.mem_singleton] at hc
        exact hc ▸ digitChar_mem _

theorem natDigitsAux_ne_nil (fuel n : Nat) : natDigitsAux fuel n ≠ [] := by
  cases fuel with
  | zero => simp [natDigitsAux]
  | succ f =>
    unfold natDigitsAux
    by_cases h : n < 10
    · rw [if_pos h]; simp
    · rw [if_neg h]; simp

theorem natToString_mem (n : Nat) (c : Char) (hc : c ∈ (natToString n).toList) :
    c ∈ ("0123456789").toList :=
  natDigitsAux_mem n n c hc

theorem natToString_ne_nil (n : Nat) : (natToString n).toList ≠ [] :=
  natDigitsAux_ne_nil n n

theorem strToList_append (s t : String) : (s ++ t).toList = s.toList ++ t.toList := by
  cases s
  cases t
  rfl

theorem leadsWith_refl (l : List Char) : leadsWith l l = true := by
  induction l with
  | nil => rfl
  | cons c cs ih => simp [leadsWith, ih]

theorem occursIn_of_leadsWith (nd l : List Char) (h : leadsWith nd l = true) :
    occursIn nd l = true := by
  cases l with
  | nil => exact h
  | cons d ds => simp [occursIn, h]

theorem occursIn_cons_of (nd : List Char) (d : Char) (ds : List Char)
    (h : occursIn nd ds = true) : occursIn nd (d :: ds) = true := by
  simp [occursIn, h]

theorem occursIn_append_self (pre nd : List Char) : occursIn nd (pre ++ nd) = true := by
  induction pre with
  | nil => exact occursIn_of_leadsWith nd nd (leadsWith_refl nd)
  | cons c cs ih => exact occursIn_cons_of nd c (cs ++ nd) ih

theorem occursIn_eq_false (c : Char) (cs l : List Char) (h : c ∉ l) :
    occursIn (c :: cs) l = false := by
  induction l with
  | nil => rfl
  | cons d ds ih =>
    have hcd : c ≠ d := fun he => h (he ▸ List.mem_cons_self d ds)
    have hds : c ∉ ds := fun hm => h (List.mem_cons_of_mem d hm)
    simp only [occursIn, leadsWith, ih hds, Bool.or_false]
    simp only [Bool.and_eq_false_imp, beq_iff_eq]
    exact fun he => absurd he hcd

theorem shan_not_mem_jsDivToFixed1 (num : Int) (den : Nat) :
    '删' ∉ (jsDivToFixed1 num den).toList := by
  unfold jsDivToFixed1
  by_cases hden : den = 0
  · rw [if_pos hden]
    split <;> first | decide | (split <;> decide)
  · rw [if_neg hden]
    intro hmem
    simp only [strToList_append, List.mem_append] at hmem
    rcases hmem with ((hs | h1) | hd) | h2
    · by_cases hn : num < 0
      · rw [if_pos hn] at hs; exact absurd hs (by decide)
      · rw [if_neg hn] at hs; exact absurd hs (by decide)
    · exact absurd (natToString_mem _ _ h1) (by decide)
    · exact absurd hd (by decide)
    · exact absurd (natToString_mem _ _ h2) (by decide)

theorem jsDivToFixed1_zero (den : Nat) (hden : 0 < den) : jsDivToFixed1 0 den = "0.0" := by
  unfold jsDivToFixed1
  rw [if_neg (Nat.pos_iff_ne_zero.mp hden)]
  have h1 : (2000 * (0 : Int).natAbs + den) / (2 * den) = 0 :=
    Nat.div_eq_of_lt (by omega)
  rw [h1]
  rfl

theorem jsDivToFixed1_head (num : Int) (den : Nat) (hden : 0 < den) :
    (((jsDivToFixed1 num den ++ "%").toList.head? = some '-') ↔ num < 0) := by
  unfold jsDivToFixed1
  rw [if_neg (Nat.pos_iff_ne_zero.mp hden)]
  by_cases hn : num < 0
  · rw [if_pos hn]
    simp only [strToList_append, hn, iff_true]
    rfl
  · rw [if_neg hn]
    cases hl : (natToString ((2000 * num.natAbs + den) / (2 * den) / 10)).toList with
    | nil => exact absurd hl (natToString_ne_nil _)
    | cons c rest =>
      have hc : c ∈ ("0123456789").toList :=
        natToString_mem ((2000 * num.natAbs + den) / (2 * den) / 10) c
          (by rw [hl]; exact List.mem_cons_self c rest)
      have hcne : c ≠ '-' := by
        intro he
        rw [he] at hc
        exact absurd hc (by decide)
      have hemp : ("" : String).toList = [] := rfl
      simp only [strToList_append, hemp, List.nil_append, hl, List.cons_append,
        List.head?_cons, Option.some.injEq]
      exact iff_of_false hcne hn

theorem jsDivToFixed1_eq_spec (num : Int) (den : Nat) (hden : 0 < den) :
    jsDivToFixed1 num den = specToFixed1 ((num : ℚ) / (den : ℚ) * 100) := by
  have hdq : (0 : ℚ) < (den : ℚ) := by exact_mod_cast hden
  have hsign : ((num : ℚ) / (den : ℚ) * 100 < 0) ↔ num < 0 := by
    constructor
    · intro h
      by_contra hnn
      push_neg at hnn
      have h0 : (0 : ℚ) ≤ (num : ℚ) := by exact_mod_cast hnn
      have h1 : (0 : ℚ) ≤ (num : ℚ) / (den : ℚ) * 100 :=
        mul_nonneg (div_nonneg h0 hdq.le) (by norm_num)
      linarith
    · intro h
      have h1 : (num : ℚ) < 0 := by exact_mod_cast h
      have h2 : (num : ℚ) / (den : ℚ) < 0 := div_neg_of_neg_of_pos h1 hdq
      exact mul_neg_of_neg_of_pos h2 (by norm_num)
  have habs : |(num : ℚ) / (den : ℚ) * 100| = ((num.natAbs : ℚ)) * 100 / (den : ℚ) := by
    rw [abs_mul, abs_div, abs_of_pos hdq, Int.cast_natAbs]
    norm_num
    ring
  have hrw : |(num : ℚ) / (den : ℚ) * 100| * 10 + 1 / 2 =
      ((2000 * num.natAbs + den : ℕ) : ℚ) / ((2 * den : ℕ) : ℚ) := by
    rw [habs]
    push_cast
    field_simp
    ring
  have hfl : (Int.floor (|(num : ℚ) / (den : ℚ) * 100| * 10 + 1 / 2)).toNat =
      (2000 * num.natAbs + den) / (2 * den) := by
    rw [hrw, Int.floor_toNat, Nat.floor_div_eq_div]
  unfold jsDivToFixed1 specToFixed1
  rw [if_neg (Nat.pos_iff_ne_zero.mp hden)]
  simp only [hsign, hfl]

theorem uvChange_includes (b a : Inspect) (u : UVAnalysis)
    (h : analyzeUV b a = Except.ok u) :
    jsIncludes u.change ("删除") = decide (u.after < u.before) := by
  rcases (analyzeUV_ok_iff b a u).mp h with ⟨bu, au, h1, h2, rfl⟩
  simp only
  have hsh : ("删除" : String).toList = ['删', '除'] := rfl
  have hdel : ("% 删除" : String).toList = ['%', ' ', '删', '除'] := rfl
  have hadd : ("% 增加" : String).toList = ['%', ' ', '增', '加'] := rfl
  have hsplit : ∀ L : List Char,
      L ++ ['%', ' ', '删', '除'] = (L ++ ['%', ' ']) ++ ['删', '除'] := by
    intro L
    rw [List.append_assoc]
    rfl
  by_cases hc1 : 0 < bu ∧ au = 0
  · rw [if_pos hc1, decide_eq_true (by omega : au < bu)]
    rfl
  · rw [if_neg hc1]
    by_cases hc2 : 0 < bu ∧ au < bu
    · rw [if_pos hc2, decide_eq_true hc2.2]
      unfold jsIncludes
      rw [strToList_append, hsh, hdel, hsplit]
      exact occursIn_append_self _ _
    · rw [if_neg hc2]
      by_cases hc3 : bu < au
      · rw [if_pos hc3, decide_eq_false (by omega : ¬au < bu)]
        unfold jsIncludes
        rw [strToList_append, hsh, hadd]
        apply occursIn_eq_false
        intro hm
        rcases List.mem_append.mp hm with hm | hm
        · exact shan_not_mem_jsDivToFixed1 _ _ hm
        · exact absurd hm (by decide)
      · rw [if_neg hc3, decide_eq_false (by omega : ¬au < bu)]
        rfl

theorem divmul_neg_iff (num : Int) (den : Nat) (hden : 0 < den) :
    ((num : ℚ) / (den : ℚ) * 100 < 0) ↔ num < 0 := by
  have hdq : (0 : ℚ) < (den : ℚ) := by exact_mod_cast hden
  constructor
  · intro h
    by_contra hnn
    push_neg at hnn
    have h0 : (0 : ℚ) ≤ (num : ℚ) := by exact_mod_cast hnn
    have h1 : (0 : ℚ) ≤ (num : ℚ) / (den : ℚ) * 100 :=
      mul_nonneg (div_nonneg h0 hdq.le) (by norm_num)
    linarith
  · intro h
    have h1 : (num : ℚ) < 0 := by exact_mod_cast h
    exact mul_neg_of_neg_of_pos (div_neg_of_neg_of_pos h1 hdq) (by norm_num)

theorem divmul_pos_iff (num : Int) (den : Nat) (hden : 0 < den) :
    (0 < (num : ℚ) / (den : ℚ) * 100) ↔ 0 < num := by
  have hdq : (0 : ℚ) < (den : ℚ) := by exact_mod_cast hden
  constructor
  · intro h
    by_contra hnn
    push_neg at hnn
    have h0 : (num : ℚ) ≤ 0 := by exact_mod_cast hnn
    have h1 : (num : ℚ) / (den : ℚ) * 100 ≤ 0 :=
      mul_nonpos_of_nonpos_of_nonneg (div_nonpos_of_nonpos_of_nonneg h0 hdq.le) (by norm_num)
    linarith
  · intro h
    have h1 : (0 : ℚ) < (num : ℚ) := by exact_mod_cast h
    exact mul_pos (div_pos h1 hdq) (by norm_num)

theorem highlights_char (b a : Inspect) (o : Options) (r : ComparisonAnalysis)
    (h : analyzeComparison b a o = Except.ok r) :
    r.highlights =
      (if r.uv.after < r.uv.before then ["体积下降主要来自 prune 删除无用 UV"] else []) ++
      (if r.materials.diff < 0 then
        ["材质通过 dedup 从 " ++ natToString r.materials.before ++
          " 减少到 " ++ natToString r.materials.after] else []) ++
      (if o.draco = true then ["Draco 几何压缩已应用"] else []) ++
      (if o.ktx2 = true ∧ r.textures.hasTextures = true then ["KTX2 贴图压缩已应用"] else []) := by
  rcases analyzeComparison_ok_elim b a o r h with ⟨v, u, g, t, hv, hu, hg, ht, rfl⟩
  simp only
  unfold generateHighlights
  simp only
  rw [uvChange_includes b a u hu]
  simp only [decide_eq_true_eq, Bool.and_eq_true]

theorem analyzeTextures_ok_build (b a : Inspect) (o : Options) (bt at2 : Nat)
    (h1 : countTextures b = Except.ok bt) (h2 : countTextures a = Except.ok at2) :
    analyzeTextures b a o =
      Except.ok
        { before := bt, after := at2,
          hasTextures := decide (0 < bt ∨ 0 < at2),
          ktx2Status :=
            if o.ktx2 then
              if decide (0 < bt ∨ 0 < at2) then "已应用" else "不适用（无贴图模型）"
            else
              if decide (0 < bt ∨ 0 < at2) then "未启用" else "不适用（无贴图模型）" } := by
  unfold analyzeTextures
  rw [h1, h2]
  simp only [Except.bind, bind, pure, Except.pure]

theorem getTotalVertices_ok (i : Inspect) (h : i.meshes ≠ JProps.nonArrayObj) :
    ∃ n, getTotalVertices i = Except.ok n := by
  unfold getTotalVertices
  cases hm : i.meshes with
  | missing => exact ⟨0, rfl⟩
  | nonArrayObj => exact absurd hm h
  | arr xs => exact ⟨_, rfl⟩

theorem countMeshesWithUV_ok (i : Inspect) (h : i.meshes ≠ JProps.nonArrayObj) :
    ∃ n, countMeshesWithUV i = Except.ok n := by
  unfold countMeshesWithUV
  cases hm : i.meshes with
  | missing => exact ⟨0, rfl⟩
  | nonArrayObj => exact absurd hm h
  | arr xs => exact ⟨_, rfl⟩

theorem getTotalGeometrySize_ok (i : Inspect) (h : i.meshes ≠ JProps.nonArrayObj) :
    ∃ n, getTotalGeometrySize i = Except.ok n := by
  unfold getTotalGeometrySize
  cases hm : i.meshes with
  | missing => exact ⟨0, rfl⟩
  | nonArrayObj => exact absurd hm h
  | arr xs => exact ⟨_, rfl⟩

theorem countTextures_ok (i : Inspect) (h : i.materials ≠ JProps.nonArrayObj) :
    ∃ n, countTextures i = Except.ok n := by
  unfold countTextures
  cases ht : i.textures with
  | arr xs => exact ⟨_, rfl⟩
  | missing =>
    cases hm : i.materials with
    | arr ms => exact ⟨_, rfl⟩
    | nonArrayObj => exact absurd hm h
    | missing => exact ⟨0, rfl⟩
  | nonArrayObj =>
    cases hm : i.materials with
    | arr ms => exact ⟨_, rfl⟩
    | nonArrayObj => exact absurd hm h
    | missing => exact ⟨0, rfl⟩

theorem jsOr_ok_exists (a : Nat) (b : Except Unit Nat) (hb : ∃ n, b = Except.ok n) :
    ∃ n, jsOr a b = Except.ok n := by
  unfold jsOr
  rcases hb with ⟨n, hn⟩
  split
  · exact ⟨n, hn⟩
  · exact ⟨a, rfl⟩

/-- C1 counterexample: with a before snapshot containing one mesh without
texture coordinates and an after snapshot containing one mesh with them,
the UV change is the string produced by JavaScript division by zero, not
a zero percentage. -/

theorem uv_zero_before_infinity_counterexample :
    analyzeUV uvZeroBefore uvOneAfter =
      Except.ok { before := 0, after := 1, totalMeshes := 1, change := "Infinity% 增加" } ∧
    ("Infinity% 增加" : String) ≠ "0%" := by
  exact ⟨rfl, by decide⟩

/-- C1 (amended): a zero before-count yields exactly the zero percentage
for the vertex and geometry metrics; for the UV metric a zero before-count
yields the zero change string only when the after count is also zero,
while a positive after count makes the unguarded division produce the
Infinity change string. -/

theorem zero_before_percent_amended (b a : Inspect) :
    (∀ rv, analyzeVertices b a = Except.ok rv → rv.before = 0 → rv.percent = "0.0%") ∧
    (∀ rg, analyzeGeometry b a = Except.ok rg → rg.before = 0 → rg.percent = "0.0%") ∧
    (∀ ru, analyzeUV b a = Except.ok ru → ru.before = 0 →
      (ru.after = 0 → ru.change = "0%") ∧ (0 < ru.after → ru.change = "Infinity% 增加")) := by
  refine ⟨?_, ?_, ?_⟩
  · intro rv hv h0
    rcases (analyzeVertices_ok_iff b a rv).mp hv with ⟨bv, av, h1, h2, rfl⟩
    simp only at h0 ⊢
    subst h0
    rfl
  · intro rg hg h0
    rcases (analyzeGeometry_ok_iff b a rg).mp hg with ⟨bs, as2, h1, h2, rfl⟩
    simp only at h0 ⊢
    subst h0
    rfl
  · intro ru hu h0
    rcases (analyzeUV_ok_iff b a ru).mp hu with ⟨bu, au, h1, h2, rfl⟩
    simp only at h0 ⊢
    subst h0
    constructor
    · intro ha
      subst ha
      rfl
    · intro ha
      rw [if_neg (by omega), if_neg (by omega), if_pos ha]
      have hnum : (au : Int) - ((0 : Nat) : Int) = (au : Int) := by omega
      rw [hnum]
      have hpos : (0 : Int) < (au : Int) := by exact_mod_cast ha
      unfold jsDivToFixed1
      rw [if_pos rfl, if_pos hpos]
      rfl

/-- C1 witness: the amended statement evaluated at the division-by-zero
input. -/

theorem zero_before_percent_amended_witness :
    ∃ rv ru, analyzeVertices uvZeroBefore uvOneAfter = Except.ok rv ∧ rv.before = 0 ∧
      rv.percent = "0.0%" ∧
      analyzeUV uvZeroBefore uvOneAfter = Except.ok ru ∧ ru.before = 0 ∧ 0 < ru.after ∧
      ru.change = "Infinity% 增加" := by
  refine ⟨_, _, rfl, rfl, ?_, rfl, rfl, by decide, ?_⟩
  · exact (zero_before_percent_amended uvZeroBefore uvOneAfter).1 _ rfl rfl
  · exact ((zero_before_percent_amended uvZeroBefore uvOneAfter).2.2 _ rfl rfl).2 (by decide)

/-- C2 counterexample: with 3 of 3 UV-bearing meshes before and 0 after,
the change string is the literal 100-percent marker without a decimal:
the claimed one-decimal format 100.0 does not occur in it. -/

theorem uv_full_removal_format_counterexample :
    analyzeUV uv3Before uv0After =
      Except.ok { before := 3, after := 0, totalMeshes := 3, change := "100% 删除" } ∧
    jsIncludes ("100% 删除") ("100.0") = false := by
  exact ⟨rfl, by decide⟩

/-- C2 (amended): the UV metric counts meshes possessing a
texture-coordinate attribute; the change is classified removed when
after < before (full removal, after = 0, emits the literal
integer-formatted 100 percent string, partial removal emits a
one-decimal percentage), added when after > before, unchanged when
equal; whenever the change is classified removed, the highlight list
contains the UV-removal message. -/

theorem uv_classification_amended (b a : Inspect) (o : Options) (r : ComparisonAnalysis)
    (h : analyzeComparison b a o = Except.ok r) :
    countMeshesWithUV b = Except.ok r.uv.before ∧
    countMeshesWithUV a = Except.ok r.uv.after ∧
    (r.uv.after < r.uv.before →
      jsIncludes r.uv.change ("删除") = true ∧
      "体积下降主要来自 prune 删除无用 UV" ∈ r.highlights) ∧
    (0 < r.uv.before → r.uv.after = 0 → r.uv.change = "100% 删除") ∧
    (0 < r.uv.after → r.uv.after < r.uv.before →
      r.uv.change =
        jsDivToFixed1 ((r.uv.before : Int) - (r.uv.after : Int)) r.uv.before ++ "% 删除") ∧
    (r.uv.before < r.uv.after →
      r.uv.change =
        jsDivToFixed1 ((r.uv.after : Int) - (r.uv.before : Int)) r.uv.before ++ "% 增加") ∧
    (r.uv.before = r.uv.after → r.uv.change = "0%") := by
  have hhl := highlights_char b a o r h
  rcases analyzeComparison_ok_elim b a o r h with ⟨v, u, g, t, hv, hu, hg, ht, hr⟩
  have huv : r.uv = u := by rw [hr]
  rcases (analyzeUV_ok_iff b a u).mp hu with ⟨bu, au, h1, h2, hu2⟩
  have hb : u.before = bu := by rw [hu2]
  have ha : u.after = au := by rw [hu2]
  have hch : u.change =
      (if 0 < bu ∧ au = 0 then "100% 删除"
       else if 0 < bu ∧ au < bu then
         jsDivToFixed1 ((bu : Int) - (au : Int)) bu ++ "% 删除"
       else if bu < au then
         jsDivToFixed1 ((au : Int) - (bu : Int)) bu ++ "% 增加"
       else "0%") := by rw [hu2]
  refine ⟨?_, ?_, ?_, ?_, ?_, ?_, ?_⟩
  · rw [huv, hb]; exact h1
  · rw [huv, ha]; exact h2
  · intro hlt
    rw [huv] at hlt ⊢
    rw [hb, ha] at hlt
    constructor
    · rw [uvChange_includes b a u hu]
      simp [hb, ha, hlt]
    · rw [hhl, huv, hb, ha, if_pos hlt]
      exact List.mem_append_left _ (List.mem_append_left _
        (List.mem_append_left _ (List.mem_cons_self _ _)))
  · intro hpos h0
    rw [huv] at hpos h0 ⊢
    rw [hb] at hpos
    rw [ha] at h0
    rw [hch, if_pos ⟨hpos, h0⟩]
  · intro hpos hlt
    rw [huv] at hpos hlt ⊢
    rw [ha] at hpos
    rw [hb, ha] at hlt
    rw [hch, hb, ha, if_neg (by omega), if_pos ⟨by omega, hlt⟩]
  · intro hlt
    rw [huv] at hlt ⊢
    rw [hb, ha] at hlt
    rw [hch, hb, ha, if_neg (by omega), if_neg (by omega), if_pos hlt]
  · intro heq
    rw [huv] at heq ⊢
    rw [hb, ha] at heq
    rw [hch, if_neg (by omega), if_neg (by omega), if_neg (by omega)]

/-- C2 witness: the amended statement evaluated on the full-removal
scenario (3 of 3 UV-bearing meshes before, 0 after). -/

theorem uv_classification_amended_witness :
    ∃ r, analyzeComparison uv3Before uv0After {} = Except.ok r ∧
      r.uv.before = 3 ∧ r.uv.after = 0 ∧ r.uv.change = "100% 删除" ∧
      "体积下降主要来自 prune 删除无用 UV" ∈ r.highlights := by
  refine ⟨_, rfl, rfl, rfl, ?_, ?_⟩
  · exact (uv_classification_amended uv3Before uv0After {} _ rfl).2.2.2.1 (by decide) rfl
  · exact ((uv_classification_amended uv3Before uv0After {} _ rfl).2.2.1 (by decide)).2

/-- C3: for the vertex and geometry metrics, diff equals after minus
before; with a positive before-count the percent string is the exact
quotient diff/before*100 rounded to one decimal with a percent suffix,
and its sign (both of the rounded rational and of the leading minus sign
of the rendered string) matches the sign of diff. -/

theorem metric_diff_percent_invariant (b a : Inspect) (rv : VertexAnalysis)
    (rg : GeometryAnalysis) (hv : analyzeVertices b a = Except.ok rv)
    (hg : analyzeGeometry b a = Except.ok rg) :
    rv.diff = (rv.after : Int) - (rv.before : Int) ∧
    rg.diff = (rg.after : Int) - (rg.before : Int) ∧
    (0 < rv.before →
      rv.percent = specToFixed1 ((rv.diff : ℚ) / (rv.before : ℚ) * 100) ++ "%" ∧
      (((rv.diff : ℚ) / (rv.before : ℚ) * 100 < 0) ↔ rv.diff < 0) ∧
      ((0 < (rv.diff : ℚ) / (rv.before : ℚ) * 100) ↔ 0 < rv.diff) ∧
      ((rv.percent.toList.head? = some '-') ↔ rv.diff < 0)) ∧
    (0 < rg.before →
      rg.percent = specToFixed1 ((rg.diff : ℚ) / (rg.before : ℚ) * 100) ++ "%" ∧
      (((rg.diff : ℚ) / (rg.before : ℚ) * 100 < 0) ↔ rg.diff < 0) ∧
      ((0 < (rg.diff : ℚ) / (rg.before : ℚ) * 100) ↔ 0 < rg.diff) ∧
      ((rg.percent.toList.head? = some '-') ↔ rg.diff < 0)) := by
  rcases (analyzeVertices_ok_iff b a rv).mp hv with ⟨bv, av, hv1, hv2, rfl⟩
  rcases (analyzeGeometry_ok_iff b a rg).mp hg with ⟨bs, as2, hg1, hg2, rfl⟩
  refine ⟨rfl, rfl, ?_, ?_⟩
  · intro hpos
    simp only at hpos ⊢
    rw [if_pos hpos]
    refine ⟨?_, divmul_neg_iff _ _ hpos, divmul_pos_iff _ _ hpos, jsDivToFixed1_head _ _ hpos⟩
    rw [jsDivToFixed1_eq_spec _ _ hpos]
  · intro hpos
    simp only at hpos ⊢
    rw [if_pos hpos]
    refine ⟨?_, divmul_neg_iff _ _ hpos, divmul_pos_iff _ _ hpos, jsDivToFixed1_head _ _ hpos⟩
    rw [jsDivToFixed1_eq_spec _ _ hpos]

/-- C3 witness: the invariant evaluated on a concrete pair (vertices 4
rising to 5, geometry 1000 bytes shrinking to 500). -/

theorem metric_diff_percent_invariant_witness :
    ∃ rv rg, analyzeVertices vertsBefore vertsAfter = Except.ok rv ∧
      analyzeGeometry vertsBefore vertsAfter = Except.ok rg ∧
      rv.diff = (rv.after : Int) - (rv.before : Int) ∧
      rg.diff = (rg.after : Int) - (rg.before : Int) ∧
      0 < rv.before ∧
      rv.percent = specToFixed1 ((rv.diff : ℚ) / (rv.before : ℚ) * 100) ++ "%" ∧
      ((rv.percent.toList.head? = some '-') ↔ rv.diff < 0) ∧
      ((rg.percent.toList.head? = some '-') ↔ rg.diff < 0) := by
  have H := metric_diff_percent_invariant vertsBefore vertsAfter _ _ rfl rfl
  exact ⟨_, _, rfl, rfl, H.1, H.2.1, by decide, (H.2.2.1 (by decide)).1,
    (H.2.2.1 (by decide)).2.2.2, (H.2.2.2 (by decide)).2.2.2⟩

/-- C4: each snapshot independently takes the vertex metric from the
first scene's uploadVertexCount when present and non-zero (overriding
the per-mesh sum), and otherwise from the per-mesh vertex sum. -/

theorem vertex_fallback_independent (b a : Inspect) (r : VertexAnalysis)
    (h : analyzeVertices b a = Except.ok r) :
    (getUploadVertexCount b ≠ 0 → r.before = getUploadVertexCount b) ∧
    (getUploadVertexCount b = 0 → getTotalVertices b = Except.ok r.before) ∧
    (getUploadVertexCount a ≠ 0 → r.after = getUploadVertexCount a) ∧
    (getUploadVertexCount a = 0 → getTotalVertices a = Except.ok r.after) ∧
    (∀ s rest, b.scenes = JProps.arr (s :: rest) → ∀ u, s.uploadVertexCount = some u →
      u ≠ 0 → r.before = u) := by
  rcases (analyzeVertices_ok_iff b a r).mp h with ⟨bv, av, h1, h2, rfl⟩
  simp only
  rcases (jsOr_ok_iff _ _ _).mp h1 with ⟨hne, rfl⟩ | ⟨hz, hok⟩
  · rcases (jsOr_ok_iff _ _ _).mp h2 with ⟨hne2, rfl⟩ | ⟨hz2, hok2⟩
    · refine ⟨fun _ => rfl, fun hz => absurd hz hne, fun _ => rfl, fun hz => absurd hz hne2,
        ?_⟩
      intro s rest hs u hu hu0
      unfold getUploadVertexCount
      rw [hs]
      show s.uploadVertexCount.getD 0 = u
      rw [hu]
      rfl
    · refine ⟨fun _ => rfl, fun hz => absurd hz hne, fun hne3 => absurd hz2 hne3,
        fun _ => hok2, ?_⟩
      intro s rest hs u hu hu0
      unfold getUploadVertexCount
      rw [hs]
      show s.uploadVertexCount.getD 0 = u
      rw [hu]
      rfl
  · rcases (jsOr_ok_iff _ _ _).mp h2 with ⟨hne2, rfl⟩ | ⟨hz2, hok2⟩
    · refine ⟨fun hne3 => absurd hz hne3, fun _ => hok, fun _ => rfl,
        fun hz3 => absurd hz3 hne2, ?_⟩
      intro s rest hs u hu hu0
      exfalso
      apply hu0
      have : getUploadVertexCount b = u := by
        unfold getUploadVertexCount
        rw [hs]
        show s.uploadVertexCount.getD 0 = u
        rw [hu]
        rfl
      omega
    · refine ⟨fun hne3 => absurd hz hne3, fun _ => hok, fun hne3 => absurd hz2 hne3,
        fun _ => hok2, ?_⟩
      intro s rest hs u hu hu0
      exfalso
      apply hu0
      have : getUploadVertexCount b = u := by
        unfold getUploadVertexCount
        rw [hs]
        show s.uploadVertexCount.getD 0 = u
        rw [hu]
        rfl
      omega

/-- C4 witness: the before snapshot carries an aggregate of 5 that
overrides its mesh sum of 7, while the after snapshot has no scenes and
falls back to its mesh sum of 9. -/

theorem vertex_fallback_independent_witness :
    ∃ r, analyzeVertices aggBefore sumAfter = Except.ok r ∧
      r.before = 5 ∧ r.after = 9 ∧
      r.before = getUploadVertexCount aggBefore ∧
      getTotalVertices sumAfter = Except.ok r.after := by
  refine ⟨_, rfl, rfl, rfl, ?_, ?_⟩
  · exact (vertex_fallback_independent aggBefore sumAfter _ rfl).1 (by decide)
  · exact (vertex_fallback_independent aggBefore sumAfter _ rfl).2.2.2.1 (by decide)

/-- C5: the highlight list is exactly the concatenation, in fixed order,
of the four rules: UV-removal message iff the UV count dropped,
material-dedup message with the literal counts iff the material count
decreased, geometry-compression message iff draco was requested, and
texture-compression message iff ktx2 was requested and the
texture-applicability flag is set. -/

theorem highlight_rules_fixed_order (b a : Inspect) (o : Options) (r : ComparisonAnalysis)
    (h : analyzeComparison b a o = Except.ok r) :
    r.highlights =
      (if r.uv.after < r.uv.before then ["体积下降主要来自 prune 删除无用 UV"] else []) ++
      (if r.materials.diff < 0 then
        ["材质通过 dedup 从 " ++ natToString r.materials.before ++
          " 减少到 " ++ natToString r.materials.after] else []) ++
      (if o.draco = true then ["Draco 几何压缩已应用"] else []) ++
      (if o.ktx2 = true ∧ r.textures.hasTextures = true then ["KTX2 贴图压缩已应用"] else []) :=
  highlights_char b a o r h

/-- C5 witness: with the draco and ktx2 flags both requested but no
textures anywhere, the list contains exactly the geometry-compression
message. -/

theorem highlight_rules_fixed_order_witness :
    ∃ r, analyzeComparison noTexDracoSnap noTexDracoSnap { draco := true, ktx2 := true } =
        Except.ok r ∧
      r.highlights = ["Draco 几何压缩已应用"] ∧ r.textures.hasTextures = false := by
  refine ⟨_, rfl, ?_, rfl⟩
  rw [highlight_rules_fixed_order noTexDracoSnap noTexDracoSnap
    { draco := true, ktx2 := true } _ rfl]
  decide

/-- C6: the texture count is taken from the document-level registry when
it is an array, otherwise from the sum of per-material texture
reference counts, otherwise zero; and the applicability flag is set
exactly when one of the two counts is positive, so two zero counts make
it false whatever the options say. -/

theorem texture_count_priority (i : Inspect) :
    (∀ xs, i.textures = JProps.arr xs → countTextures i = Except.ok xs.length) ∧
    (∀ ms, (∀ xs, i.textures ≠ JProps.arr xs) → i.materials = JProps.arr ms →
      countTextures i =
        Except.ok (ms.foldl (fun count material => count + (material.textures.getD []).length) 0)) ∧
    ((∀ xs, i.textures ≠ JProps.arr xs) → i.materials = JProps.missing →
      countTextures i = Except.ok 0) ∧
    (∀ (a : Inspect) (o : Options) (t : TextureAnalysis),
      analyzeTextures i a o = Except.ok t →
      (t.hasTextures = true ↔ (0 < t.before ∨ 0 < t.after)) ∧
      (t.before = 0 → t.after = 0 → t.hasTextures = false)) := by
  refine ⟨?_, ?_, ?_, ?_⟩
  · intro xs hx
    unfold countTextures
    rw [hx]
  · intro ms hnx hm
    unfold countTextures
    cases ht : i.textures with
    | arr xs => exact absurd ht (hnx xs)
    | missing => rw [hm]
    | nonArrayObj => rw [hm]
  · intro hnx hm
    unfold countTextures
    cases ht : i.textures with
    | arr xs => exact absurd ht (hnx xs)
    | missing => rw [hm]
    | nonArrayObj => rw [hm]
  · intro a o t ht
    rcases analyzeTextures_ok_elim i a o t ht with ⟨bt, at2, h1, h2, rfl⟩
    constructor
    · simp [decide_eq_true_eq]
    · intro hb ha
      simp only at hb ha
      subst hb
      subst ha
      simp

/-- C6 witness: a snapshot whose registry holds 3 textures while its
materials reference only 1 uses the registry; a snapshot without a
registry sums the per-material references (2 + 0 + 1); and with both
counts zero the applicability flag is false even with ktx2 requested. -/

theorem texture_count_priority_witness :
    countTextures texRegistrySnap = Except.ok 3 ∧
    countTextures texMaterialSnap = Except.ok 3 ∧
    (∃ t, analyzeTextures emptyInspect emptyInspect { ktx2 := true } = Except.ok t ∧
      t.before = 0 ∧ t.after = 0 ∧ t.hasTextures = false) := by
  refine ⟨?_, ?_, ?_⟩
  · exact (texture_count_priority texRegistrySnap).1 [(), (), ()] rfl
  · exact (texture_count_priority texMaterialSnap).2.1
      [{ textures := some [(), ()] }, { textures := none }, { textures := some [()] }]
      (by intro xs hx; simp [texMaterialSnap] at hx) rfl
  · refine ⟨_, rfl, rfl, rfl, ?_⟩
    exact (texture_count_priority emptyInspect).2.2.2 emptyInspect { ktx2 := true } _ rfl
      |>.2 rfl rfl

theorem animPartLine_ne (x y : String) :
    ("动画部分保留（" ++ x ++ "/" ++ y ++ "）") ≠ "动画：无动画数据" := by
  intro hline
  have h2 := congrArg String.toList hline
  simp only [strToList_append] at h2
  have e1 : ("动画部分保留（" : String).toList = ['动', '画', '部', '分', '保', '留', '（'] := rfl
  have e2 : ("/" : String).toList = ['/'] := rfl
  have e3 : ("）" : String).toList = ['）'] := rfl
  have e4 : ("动画：无动画数据" : String).toList =
      ['动', '画', '：', '无', '动', '画', '数', '据'] := rfl
  rw [e1, e2, e3, e4] at h2
  simp only [List.append_assoc, List.cons_append, List.nil_append, List.cons.injEq] at h2
  exact absurd h2.2.2.1 (by decide)

/-- C7: the preserved flag is true exactly when the before and after
track counts agree and the before count is positive; and the report
prints the distinct no-animation-data line exactly when the before count
is zero. -/

theorem animation_preserved_iff (b a : Inspect) :
    ((analyzeAnimations b a).preserved = true ↔
      ((analyzeAnimations b a).before = (analyzeAnimations b a).after ∧
        0 < (analyzeAnimations b a).before)) ∧
    (animationReportLine (analyzeAnimations b a) = "动画：无动画数据" ↔
      (analyzeAnimations b a).before = 0) := by
  constructor
  · simp [analyzeAnimations]
  · unfold animationReportLine
    by_cases h0 : 0 < (analyzeAnimations b a).before
    · rw [if_pos h0]
      constructor
      · intro hline
        by_cases hp : (analyzeAnimations b a).preserved
        · rw [if_pos hp] at hline
          exact absurd hline (by decide)
        · rw [if_neg hp] at hline
          exact absurd hline (animPartLine_ne _ _)
      · intro h0eq
        omega
    · rw [if_neg h0]
      constructor
      · intro _
        omega
      · intro _
        rfl

/-- C7 witness: one animation track on each side is preserved and not
reported as the no-animation-data line; the empty snapshot reports the
no-animation-data line. -/

theorem animation_preserved_iff_witness :
    (analyzeAnimations animSnapOne animSnapOne).preserved = true ∧
    animationReportLine (analyzeAnimations animSnapOne animSnapOne) ≠ "动画：无动画数据" ∧
    animationReportLine (analyzeAnimations emptyInspect emptyInspect) = "动画：无动画数据" := by
  refine ⟨?_, ?_, ?_⟩
  · exact (animation_preserved_iff animSnapOne animSnapOne).1.mpr ⟨rfl, by decide⟩
  · intro hline
    exact absurd ((animation_preserved_iff animSnapOne animSnapOne).2.mp hline) (by decide)
  · exact (animation_preserved_iff emptyInspect emptyInspect).2.mpr rfl

/-- C8: comparing a snapshot with itself yields zero diff and the zero
percentage on every metric, equal before/after counts, and a highlight
list in which no entry mentions UV removal, an increase, or material
deduplication. -/

theorem self_comparison_identity (s : Inspect) (o : Options) (r : ComparisonAnalysis)
    (h : analyzeComparison s s o = Except.ok r) :
    r.vertices.diff = 0 ∧ r.vertices.percent = "0.0%" ∧
    r.uv.before = r.uv.after ∧ r.uv.change = "0%" ∧
    r.geometry.diff = 0 ∧ r.geometry.percent = "0.0%" ∧
    r.materials.diff = 0 ∧ r.materials.reason = "" ∧
    r.animations.before = r.animations.after ∧
    r.textures.before = r.textures.after ∧
    (∀ hl ∈ r.highlights,
      jsIncludes hl ("删除") = false ∧ jsIncludes hl ("增加") = false ∧
      jsIncludes hl ("dedup") = false) := by
  have hhl := highlights_char s s o r h
  rcases analyzeComparison_ok_elim s s o r h with ⟨v, u, g, t, hv, hu, hg, ht, hr⟩
  rcases (analyzeVertices_ok_iff s s v).mp hv with ⟨bv, av, h1, h2, hv2⟩
  rw [h1] at h2
  injection h2 with hba
  subst hba
  rcases (analyzeUV_ok_iff s s u).mp hu with ⟨bu, au, h3, h4, hu2⟩
  rw [h3] at h4
  injection h4 with hbu
  subst hbu
  rcases (analyzeGeometry_ok_iff s s g).mp hg with ⟨bs, as2, h5, h6, hg2⟩
  rw [h5] at h6
  injection h6 with hbs
  subst hbs
  rcases analyzeTextures_ok_elim s s o t ht with ⟨bt, at2, h7, h8, ht2⟩
  rw [h7] at h8
  injection h8 with hbt
  subst hbt
  have hrv : r.vertices = v := by rw [hr]
  have hru : r.uv = u := by rw [hr]
  have hrg : r.geometry = g := by rw [hr]
  have hrm : r.materials = analyzeMaterials s s := by rw [hr]
  have hra : r.animations = analyzeAnimations s s := by rw [hr]
  have hrt : r.textures = t := by rw [hr]
  have hmd : (analyzeMaterials s s).diff = 0 := by
    unfold analyzeMaterials
    simp
  have hmr : (analyzeMaterials s s).reason = "" := by
    unfold analyzeMaterials
    simp
  refine ⟨?_, ?_, ?_, ?_, ?_, ?_, ?_, ?_, ?_, ?_, ?_⟩
  · rw [hrv, hv2]
    simp
  · rw [hrv, hv2]
    simp only
    by_cases hbv : 0 < bv
    · rw [if_pos hbv]
      have hz : (bv : Int) - (bv : Int) = 0 := by omega
      rw [hz, jsDivToFixed1_zero bv hbv]
      rfl
    · rw [if_neg hbv]
      rfl
  · rw [hru, hu2]
  · rw [hru, hu2]
    simp only
    rw [if_neg (by omega), if_neg (by omega), if_neg (by omega)]
  · rw [hrg, hg2]
    simp
  · rw [hrg, hg2]
    simp only
    by_cases hbs2 : 0 < bs
    · rw [if_pos hbs2]
      have hz : (bs : Int) - (bs : Int) = 0 := by omega
      rw [hz, jsDivToFixed1_zero bs hbs2]
      rfl
    · rw [if_neg hbs2]
      rfl
  · rw [hrm]
    exact hmd
  · rw [hrm]
    exact hmr
  · rw [hra]
    rfl
  · rw [hrt, ht2]
  · intro hl hmem
    rw [hhl] at hmem
    have hc1 : ¬(r.uv.after < r.uv.before) := by
      rw [hru, hu2]
      simp only
      omega
    have hc2 : ¬(r.materials.diff < 0) := by
      rw [hrm, hmd]
      omega
    rw [if_neg hc1, if_neg hc2] at hmem
    simp only [List.nil_append] at hmem
    rcases List.mem_append.mp hmem with hm | hm
    · split at hm
      · simp only [List.mem_singleton] at hm
        subst hm
        exact ⟨by decide, by decide, by decide⟩
      · exact absurd hm (List.not_mem_nil hl)
    · split at hm
      · simp only [List.mem_singleton] at hm
        subst hm
        exact ⟨by decide, by decide, by decide⟩
      · exact absurd hm (List.not_mem_nil hl)

/-- C8 witness: the identity comparison evaluated on a concrete snapshot
with meshes, materials, textures, animations and a scene aggregate, with
both compression flags requested. -/

theorem self_comparison_identity_witness :
    ∃ r, analyzeComparison richSnap richSnap { draco := true, ktx2 := true } = Except.ok r ∧
      r.vertices.diff = 0 ∧ r.vertices.percent = "0.0%" ∧ r.uv.change = "0%" ∧
      r.geometry.percent = "0.0%" ∧ r.materials.diff = 0 := by
  have H := self_comparison_identity richSnap { draco := true, ktx2 := true } _ rfl
  exact ⟨_, rfl, H.1, H.2.1, H.2.2.2.1, H.2.2.2.2.2.1, H.2.2.2.2.2.2.1⟩

/-- C9: the transient-file cleanup is total and returns true exactly when
the file existed and the unlink succeeded (false when the file was
absent or the deletion failed), and the orchestrator's catch block runs
this best-effort cleanup and exits with the non-zero code 1 for every
file-system state, in particular when the transient file does not
exist. -/

theorem cleanup_never_raises (fs : FileSystem) (filePath : String) :
    (cleanupTempFile fs filePath).1 = (fs.pathExists filePath && fs.unlinkSucceeds filePath) ∧
    (mainCatchHandler fs filePath).1 = 1 ∧ (mainCatchHandler fs filePath).1 ≠ 0 := by
  refine ⟨?_, rfl, Nat.one_ne_zero⟩
  unfold cleanupTempFile
  cases hE : fs.pathExists filePath with
  | false => simp [hE]
  | true =>
    cases hU : fs.unlinkSucceeds filePath with
    | false => simp [hE, hU]
    | true => simp [hE, hU]

/-- C10 counterexample: an input whose meshes substructure has a truthy
non-array properties object makes the comparison throw a TypeError
instead of returning normally. -/

theorem nonarray_meshes_raises_counterexample :
    analyzeComparison nonArrayMeshesSnap emptyInspect {} = Except.error () := by
  rfl

/-- C10 (amended): when neither snapshot carries a truthy non-array
properties object under meshes or materials, the comparison returns
normally; inputs with the substructures missing entirely are treated as
zero by every extractor, including the texture registry fallback and the
scene aggregate. -/

theorem missing_substructures_amended :
    (∀ (b a : Inspect) (o : Options),
      b.meshes ≠ JProps.nonArrayObj → b.materials ≠ JProps.nonArrayObj →
      a.meshes ≠ JProps.nonArrayObj → a.materials ≠ JProps.nonArrayObj →
      ∃ r, analyzeComparison b a o = Except.ok r) ∧
    getTotalVertices emptyInspect = Except.ok 0 ∧
    countMeshesWithUV emptyInspect = Except.ok 0 ∧
    getMeshCount emptyInspect = 0 ∧
    getTotalGeometrySize emptyInspect = Except.ok 0 ∧
    getMaterialCount emptyInspect = 0 ∧
    countTextures emptyInspect = Except.ok 0 ∧
    getUploadVertexCount emptyInspect = 0 := by
  refine ⟨?_, rfl, rfl, rfl, rfl, rfl, rfl, rfl⟩
  intro b a o hbm hbmat ham hamat
  obtain ⟨bv, hbv⟩ := jsOr_ok_exists (getUploadVertexCount b) _ (getTotalVertices_ok b hbm)
  obtain ⟨av, hav⟩ := jsOr_ok_exists (getUploadVertexCount a) _ (getTotalVertices_ok a ham)
  obtain ⟨bu, hbu⟩ := countMeshesWithUV_ok b hbm
  obtain ⟨au, hau⟩ := countMeshesWithUV_ok a ham
  obtain ⟨bs, hbs⟩ := getTotalGeometrySize_ok b hbm
  obtain ⟨as2, has⟩ := getTotalGeometrySize_ok a ham
  obtain ⟨bt, hbt⟩ := countTextures_ok b hbmat
  obtain ⟨at2, hat⟩ := countTextures_ok a hamat
  have hv := (analyzeVertices_ok_iff b a _).mpr ⟨bv, av, hbv, hav, rfl⟩
  have hu := (analyzeUV_ok_iff b a _).mpr ⟨bu, au, hbu, hau, rfl⟩
  have hg := (analyzeGeometry_ok_iff b a _).mpr ⟨bs, as2, hbs, has, rfl⟩
  have ht := analyzeTextures_ok_build b a o bt at2 hbt hat
  exact ⟨_, analyzeComparison_ok_build b a o _ _ _ _ hv hu hg ht⟩

/-- C10 witness: the amended statement evaluated with an entirely empty
before snapshot and a one-mesh after snapshot. -/

theorem missing_substructures_amended_witness :
    ∃ r, analyzeComparison emptyInspect uvOneAfter {} = Except.ok r :=
  missing_substructures_amended.1 emptyInspect uvOneAfter {}
    (by decide) (by decide) (by decide) (by decide)
